import Mathlib

/-!
Verification of the DevOps Pal chat client (src/frontend/src/App.jsx).

The client holds four pieces of state (the React `useState` hooks in `App`):
a session identifier (`sessionId`, initially `null`), an ordered transcript
of messages (`messages`, initially `[]`), the text-input field contents
(`input`, initially `""`), and an in-flight flag (`loading`, initially
`false`).  Two asynchronous operations touch this state: `startSession`
and `sendMessage`.  We embed the state and both operations as pure Lean
functions; an asynchronous operation is split into its synchronous prefix
(everything executed before the `await`ed call settles) and its settlement
continuation, with the backend call's outcome passed in as data.
-/

namespace DevOpsPal

/-- Message roles: the client only ever constructs "user" and "assistant". -/
inductive Role where
  | user
  | assistant
deriving DecidableEq, Repr

/-- A transcript entry: `{ role, content }` as built in `sendMessage`. -/
structure Message where
  role : Role
  content : String
deriving DecidableEq, Repr

/-- The component state held by the four `useState` hooks in `App`. -/
structure AppState where
  sessionId : Option String
  messages : List Message
  input : String
  loading : Bool
deriving DecidableEq, Repr

/-- Initial hook values: `useState(null)`, `useState([])`, `useState("")`,
`useState(false)`. -/
def initialState : AppState :=
  { sessionId := none, messages := [], input := "", loading := false }

/-- Body of the parsed JSON of a `/api/chat` response.  The contract type of
`response` is string; it may be absent (`data.response` is `undefined`),
which we model with `Option`. -/
structure ChatResponse where
  response : Option String
deriving DecidableEq, Repr

/-- Outcome of the `fetch` + `res.json()` pair inside `sendMessage`.
`resolved ok body` means the fetch promise resolved with `res.ok = ok`;
`body = some d` means `res.json()` resolved to `d`, `body = none` means
`res.json()` threw (malformed body).  `rejected` means the fetch itself
threw or rejected (network/transport error). -/
inductive ChatCallResult where
  | resolved (ok : Bool) (body : Option ChatResponse)
  | rejected
deriving DecidableEq, Repr

/-- Request body of `/api/chat`:
`JSON.stringify({ session_id: sessionId, message: userMsg.content })`. -/
structure ChatRequest where
  session_id : String
  message : String
deriving DecidableEq, Repr

/-- JS truthiness of `data.response` as used in `if (data.response)`:
under the contract (`response` is a string when present), truthy means
present and non-empty. -/
def responseTruthy : Option String → Bool
  | some s => s ≠ ""
  | none => false

/-- The fixed fallback text appended by the `catch` block of `sendMessage`. -/
def errorFallbackText : String :=
  "Sorry, I encountered an error. Please try again."

/-- JavaScript `String.prototype.trim()`: drop whitespace characters from
both ends of the string. -/
def jsTrim (s : String) : String :=
  String.mk (((s.data.dropWhile Char.isWhitespace).reverse.dropWhile
    Char.isWhitespace).reverse)

/-- The guard on line 70 of App.jsx: `if (!input.trim() || !sessionId) return;`.
`!input.trim()` is true exactly when the trimmed string is empty, and
`!sessionId` is true when it is `null` (no session yet). -/
def sendPrecondHolds (st : AppState) : Bool :=
  !(jsTrim st.input = "" || st.sessionId = none)

/-- Synchronous prefix of `sendMessage` (lines 70-83): check the guard; if it
passes, append the user message built from the raw `input` (line 72:
`{ role: "user", content: input }`), set `loading` to true, clear the input
field, and issue the request carrying `userMsg.content`.  Returns the new
state together with the issued request (`none` when the guard fails and the
operation returned early). -/
def sendBegin (st : AppState) : AppState × Option ChatRequest :=
  if jsTrim st.input = "" || st.sessionId = none then
    (st, none)
  else
    ({ st with
        messages := st.messages ++ [{ role := Role.user, content := st.input }]
        loading := true
        input := "" },
     some { session_id := st.sessionId.getD "", message := st.input })

/-- Settlement continuation of `sendMessage` (lines 85-106): on `!res.ok` an
error is thrown, joining every thrown/rejected condition in the `catch`
block, which appends the fixed fallback assistant message; on a parsed body
an assistant message is appended only when `data.response` is truthy.  The
`finally` block clears `loading` on every path. -/
def sendSettle (st : AppState) (r : ChatCallResult) : AppState :=
  let st2 : AppState :=
    match r with
    | ChatCallResult.resolved true (some data) =>
        if responseTruthy data.response then
          { st with
              messages := st.messages ++
                [{ role := Role.assistant, content := data.response.getD "" }] }
        else
          st
    | _ =>
        { st with
            messages := st.messages ++
              [{ role := Role.assistant, content := errorFallbackText }] }
  { st2 with loading := false }

/-- The whole `sendMessage` invocation, run to completion with outcome `r`:
the early return when the guard fails (no request, no state change),
otherwise the synchronous prefix followed by settlement. -/
def sendMessage (st : AppState) (r : ChatCallResult) : AppState :=
  match sendBegin st with
  | (_, none) => st
  | (st1, some _) => sendSettle st1 r

/-- Body of the parsed JSON of a `/api/start_session` response; `session_id`
may be absent, in which case `data.session_id` is `undefined`. -/
structure StartResponse where
  session_id : Option String
deriving DecidableEq, Repr

/-- Outcome of the `fetch` + `res.json()` pair inside `startSession`, with
the same shape as for the chat call.  Note that `startSession` never reads
`res.ok`. -/
inductive StartCallResult where
  | resolved (ok : Bool) (body : Option StartResponse)
  | rejected
deriving DecidableEq, Repr

/-- The whole `startSession` invocation (lines 51-66), run to completion with
outcome `r`: `setLoading(true)`, fetch, `res.json()`; when the body parses,
`setSessionId(data.session_id)` and `setMessages([])` run (the HTTP status
is never consulted); when the fetch rejects or the body fails to parse, the
`catch` block only logs; `finally` clears `loading` on every path. -/
def startSession (st : AppState) (r : StartCallResult) : AppState :=
  match r with
  | StartCallResult.resolved _ (some data) =>
      { st with sessionId := data.session_id, messages := [], loading := false }
  | _ =>
      { st with loading := false }

/-- Synchronous prefix of `startSession`: `setLoading(true)` on line 53 runs
before the fetch is awaited. -/
def startBegin (st : AppState) : AppState :=
  { st with loading := true }

/-- Settlement continuation of `startSession`, applied to the mid-flight
state produced by `startBegin`. -/
def startSettle (st : AppState) (r : StartCallResult) : AppState :=
  startSession st r

/-- Failure classification for a chat call: everything except a resolved
response with `res.ok` and a parseable body reaches the `catch` block
(non-2xx status throws on line 85; a `res.json()` rejection and a fetch
rejection are caught directly). -/
def ChatCallResult.isFailure : ChatCallResult → Bool
  | ChatCallResult.resolved true (some _) => false
  | _ => true

/-! ### Event-loop trace model

The UI is single-threaded and event-driven.  We model the reachable
configurations of the component as an `AppState` together with which
backend call (if any) is currently outstanding, and the possible events:
user interactions, gated exactly as the JSX gates them (the text input has
`disabled={loading}`, so typing and the Enter-key submit path are
impossible while `loading`; the send button has
`disabled={loading || !input.trim()}`; both the `Start New Chat` and the
`New Chat` buttons have `disabled={loading}`), and the settlement of an
outstanding call. -/

/-- Which backend call is currently outstanding. -/
inductive Pending where
  | idle
  | chat
  | start
deriving DecidableEq, Repr

/-- A configuration of the running component. -/
structure Sys where
  app : AppState
  pending : Pending
deriving DecidableEq, Repr

/-- The initial configuration: fresh hook state, nothing outstanding. -/
def initialSys : Sys :=
  { app := initialState, pending := Pending.idle }

/-- Events the environment can deliver to the component. -/
inductive Event where
  | typeInput (t : String)
  | submitSend
  | clickStart
  | chatSettled (r : ChatCallResult)
  | startSettled (r : StartCallResult)
deriving DecidableEq, Repr

/-- Whether an event's handler writes the session identifier: only the
settlement of a `startSession` call does (`setSessionId` on line 59). -/
def Event.writesSession : Event → Bool
  | Event.startSettled _ => true
  | _ => false

/-- One step of the event loop.  `none` means the event cannot occur in this
configuration (its control is disabled, or no matching call is
outstanding). -/
def step (s : Sys) : Event → Option Sys
  | Event.typeInput t =>
      if s.app.loading then none
      else some { s with app := { s.app with input := t } }
  | Event.submitSend =>
      if s.app.loading then none
      else
        match sendBegin s.app with
        | (_, none) => some s
        | (st1, some _) => some { app := st1, pending := Pending.chat }
  | Event.clickStart =>
      if s.app.loading then none
      else some { app := startBegin s.app, pending := Pending.start }
  | Event.chatSettled r =>
      match s.pending with
      | Pending.chat => some { app := sendSettle s.app r, pending := Pending.idle }
      | _ => none
  | Event.startSettled r =>
      match s.pending with
      | Pending.start => some { app := startSettle s.app r, pending := Pending.idle }
      | _ => none

/-- Configurations reachable from the initial one by event-loop steps. -/
inductive Reachable : Sys → Prop where
  | init : Reachable initialSys
  | next {s s' : Sys} {e : Event} :
      Reachable s → step s e = some s' → Reachable s'

/-! ### Helper lemmas -/

/-- When the guard passes, `sendBegin` appends the user message built from
the raw input, raises `loading`, clears the input field, and issues the
request. -/
theorem sendBegin_eq_of_precond (st : AppState) (h : sendPrecondHolds st = true) :
    sendBegin st =
      ({ st with
          messages := st.messages ++ [{ role := Role.user, content := st.input }]
          loading := true
          input := "" },
       some { session_id := st.sessionId.getD "", message := st.input }) := by
  have h' : ¬(jsTrim st.input = "" || st.sessionId = none) = true := by
    simpa [sendPrecondHolds] using h
  simp only [sendBegin]
  rw [if_neg h']

/-- When the guard fails, `sendBegin` returns early: no request, no change. -/
theorem sendBegin_eq_of_not_precond (st : AppState) (h : sendPrecondHolds st = false) :
    sendBegin st = (st, none) := by
  have h' : (jsTrim st.input = "" || st.sessionId = none) = true := by
    cases hb : (jsTrim st.input = "" || st.sessionId = none)
    · exact absurd h (by simp [sendPrecondHolds, hb])
    · rfl
  simp only [sendBegin]
  rw [if_pos h']

/-- The `finally` block of `sendMessage` clears `loading` on every path. -/
theorem sendSettle_loading_false (st : AppState) (r : ChatCallResult) :
    (sendSettle st r).loading = false := rfl

/-- `sendSettle` never writes the session identifier. -/
theorem sendSettle_sessionId (st : AppState) (r : ChatCallResult) :
    (sendSettle st r).sessionId = st.sessionId := by
  cases r with
  | resolved ok body =>
      cases ok with
      | false => cases body <;> simp [sendSettle]
      | true =>
          cases body with
          | none => simp [sendSettle]
          | some d =>
              simp only [sendSettle]
              split <;> simp
  | rejected => simp [sendSettle]

/-- `sendSettle` never writes the input field. -/
theorem sendSettle_input (st : AppState) (r : ChatCallResult) :
    (sendSettle st r).input = st.input := by
  cases r with
  | resolved ok body =>
      cases ok with
      | false => cases body <;> simp [sendSettle]
      | true =>
          cases body with
          | none => simp [sendSettle]
          | some d =>
              simp only [sendSettle]
              split <;> simp
  | rejected => simp [sendSettle]

/-- The `finally` block of `startSession` clears `loading` on every path. -/
theorem startSession_loading_false (st : AppState) (r : StartCallResult) :
    (startSession st r).loading = false := by
  cases r with
  | resolved ok body => cases body <;> simp [startSession]
  | rejected => simp [startSession]

/-- `startSession` never touches the input field. -/
theorem startSession_input (st : AppState) (r : StartCallResult) :
    (startSession st r).input = st.input := by
  cases r with
  | resolved ok body => cases body <;> simp [startSession]
  | rejected => simp [startSession]

/-- In every reachable configuration the `loading` flag is raised exactly
while some backend call is outstanding. -/
theorem reachable_loading_iff_pending (s : Sys) (h : Reachable s) :
    s.app.loading = true ↔ s.pending ≠ Pending.idle := by
  induction h with
  | init => simp [initialSys, initialState]
  | next hr hstep ih =>
      rename_i s s' e
      cases e with
      | typeInput t =>
          simp only [step] at hstep
          by_cases hl : s.app.loading = true
          · rw [if_pos hl] at hstep; exact absurd hstep (by simp)
          · have hlf : s.app.loading = false := by
              cases hb : s.app.loading
              · rfl
              · exact absurd hb hl
            have hp : s.pending = Pending.idle := by
              by_contra hc
              exact hl (ih.mpr hc)
            rw [if_neg hl] at hstep
            simp only [Option.some.injEq] at hstep
            subst hstep
            simp [hp, hlf]
      | submitSend =>
          simp only [step] at hstep
          by_cases hl : s.app.loading = true
          · rw [if_pos hl] at hstep; exact absurd hstep (by simp)
          · rw [if_neg hl] at hstep
            by_cases hpre : sendPrecondHolds s.app = true
            · rw [sendBegin_eq_of_precond s.app hpre] at hstep
              simp only [Option.some.injEq] at hstep
              subst hstep
              simp
            · rw [sendBegin_eq_of_not_precond s.app (Bool.eq_false_iff.mpr hpre)] at hstep
              simp only [Option.some.injEq] at hstep
              subst hstep
              exact ih
      | clickStart =>
          simp only [step] at hstep
          by_cases hl : s.app.loading = true
          · rw [if_pos hl] at hstep; exact absurd hstep (by simp)
          · rw [if_neg hl] at hstep
            simp only [Option.some.injEq] at hstep
            subst hstep
            simp [startBegin]
      | chatSettled r =>
          simp only [step] at hstep
          cases hp : s.pending
          · rw [hp] at hstep; simp at hstep
          · rw [hp] at hstep
            simp only [Option.some.injEq] at hstep
            subst hstep
            simp [sendSettle_loading_false]
          · rw [hp] at hstep; simp at hstep
      | startSettled r =>
          simp only [step] at hstep
          cases hp : s.pending
          · rw [hp] at hstep; simp at hstep
          · rw [hp] at hstep; simp at hstep
          · rw [hp] at hstep
            simp only [Option.some.injEq] at hstep
            subst hstep
            simp [startSettle, startSession_loading_false]

/-- `sendBegin` never writes the session identifier. -/
theorem sendBegin_fst_sessionId (st : AppState) :
    (sendBegin st).1.sessionId = st.sessionId := by
  simp only [sendBegin]
  split <;> rfl

/-! ### Concrete states used by counterexamples and witnesses -/

/-- A state with an active session, an empty transcript and input `"hi"`. -/
def wSt : AppState :=
  { sessionId := some "s1", messages := [], input := "hi", loading := false }

/-- A state with an active session but all-whitespace input. -/
def nSt : AppState :=
  { sessionId := some "s", messages := [], input := "   ", loading := false }

/-- A state holding session `"s0"` and a one-message transcript. -/
def c3State : AppState :=
  { sessionId := some "s0"
    messages := [{ role := Role.user, content := "hello" }]
    input := ""
    loading := false }

/-- A state whose input carries leading and trailing whitespace. -/
def c5State : AppState :=
  { sessionId := some "s", messages := [], input := " hi ", loading := false }

/-! ### Claim theorems -/

/-- Claim C1: a send with valid precondition whose call resolves successfully
with a non-empty `response` field `X` appends the user-role message
immediately (already present in the mid-flight state produced before the
call resolves) and, after resolution, exactly one assistant-role message
with content `X`: the transcript grows by exactly these two entries. -/
theorem sendMessage_success_appends_two (st : AppState) (X : String)
    (hpre : sendPrecondHolds st = true) (hX : X ≠ "") :
    (sendBegin st).1.messages =
      st.messages ++ [{ role := Role.user, content := st.input }] ∧
    (sendMessage st (ChatCallResult.resolved true (some { response := some X }))).messages =
      st.messages ++ [{ role := Role.user, content := st.input },
                      { role := Role.assistant, content := X }] := by
  have hb := sendBegin_eq_of_precond st hpre
  constructor
  · rw [hb]
  · simp only [sendMessage]
    rw [hb]
    simp [sendSettle, responseTruthy, hX]

/-- Witness for C1 at a concrete state and reply text. -/
theorem sendMessage_success_appends_two_witness :
    sendPrecondHolds wSt = true ∧ ("ok" : String) ≠ "" ∧
    ((sendBegin wSt).1.messages =
        wSt.messages ++ [{ role := Role.user, content := wSt.input }] ∧
     (sendMessage wSt (ChatCallResult.resolved true (some { response := some "ok" }))).messages =
        wSt.messages ++ [{ role := Role.user, content := wSt.input },
                         { role := Role.assistant, content := "ok" }]) :=
  ⟨by decide, by decide,
   sendMessage_success_appends_two wSt "ok" (by decide) (by decide)⟩

/-- Claim C2: a send with valid precondition whose call fails — non-success
HTTP status, unparseable body, or a rejected fetch — appends exactly one
assistant-role message with the fixed fallback text, and the user-role
message appended before the call remains in the transcript. -/
theorem sendMessage_failure_appends_fallback (st : AppState) (r : ChatCallResult)
    (hpre : sendPrecondHolds st = true) (hf : r.isFailure = true) :
    (sendMessage st r).messages =
      st.messages ++ [{ role := Role.user, content := st.input },
                      { role := Role.assistant, content := errorFallbackText }] := by
  have hb := sendBegin_eq_of_precond st hpre
  simp only [sendMessage]
  rw [hb]
  cases r with
  | resolved ok body =>
      cases ok with
      | false => simp [sendSettle]
      | true =>
          cases body with
          | none => simp [sendSettle]
          | some d => simp [ChatCallResult.isFailure] at hf
  | rejected => simp [sendSettle]

/-- Witness for C2 at a concrete state with a rejected call. -/
theorem sendMessage_failure_appends_fallback_witness :
    sendPrecondHolds wSt = true ∧
    ChatCallResult.isFailure ChatCallResult.rejected = true ∧
    (sendMessage wSt ChatCallResult.rejected).messages =
      wSt.messages ++ [{ role := Role.user, content := wSt.input },
                      { role := Role.assistant, content := errorFallbackText }] :=
  ⟨by decide, by decide,
   sendMessage_failure_appends_fallback wSt ChatCallResult.rejected
     (by decide) (by decide)⟩

/-- Counterexample to claim C3 as stated: a start-session call that resolves
with a non-2xx status but a parseable body does NOT leave the previous
session identifier and message sequence untouched — the identifier is
overwritten (from `"s0"` to `"s1"`) and the transcript is cleared, because
`startSession` never consults `res.ok`. -/
theorem startSession_non2xx_overwrites :
    (startSession c3State
        (StartCallResult.resolved false (some { session_id := some "s1" }))).sessionId =
      some "s1" ∧
    (startSession c3State
        (StartCallResult.resolved false (some { session_id := some "s1" }))).messages = [] ∧
    c3State.sessionId = some "s0" ∧
    c3State.messages ≠ [] :=
  ⟨rfl, rfl, rfl, by decide⟩

/-- Claim C3 (amended): for send message a non-2xx status takes the failure
behavior (the fixed fallback assistant message is appended); for start
session the HTTP status is never inspected: a non-2xx response whose body
parses overwrites the session identifier with the body's `session_id`
field and clears the transcript, and only a body that fails to parse
leaves the previous state untouched. -/
theorem non2xx_status_behavior :
    (∀ (st : AppState) (body : Option ChatResponse), sendPrecondHolds st = true →
        (sendMessage st (ChatCallResult.resolved false body)).messages =
          st.messages ++ [{ role := Role.user, content := st.input },
                          { role := Role.assistant, content := errorFallbackText }]) ∧
    (∀ (st : AppState) (b : StartResponse),
        startSession st (StartCallResult.resolved false (some b)) =
          { st with sessionId := b.session_id, messages := [], loading := false }) ∧
    (∀ st : AppState,
        startSession st (StartCallResult.resolved false none) =
          { st with loading := false }) := by
  refine ⟨?_, ?_, ?_⟩
  · intro st body hpre
    have hb := sendBegin_eq_of_precond st hpre
    simp only [sendMessage]
    rw [hb]
    simp [sendSettle]
  · intro st b
    simp [startSession]
  · intro st
    simp [startSession]

/-- Witness for the amended C3 at a concrete state. -/
theorem non2xx_status_behavior_witness :
    sendPrecondHolds wSt = true ∧
    (sendMessage wSt (ChatCallResult.resolved false none)).messages =
      wSt.messages ++ [{ role := Role.user, content := wSt.input },
                      { role := Role.assistant, content := errorFallbackText }] :=
  ⟨by decide, non2xx_status_behavior.1 wSt none (by decide)⟩

/-- Claim C4: a start-session invocation that fails with a transport error
(rejected fetch) or a response-decoding error (body fails to parse) leaves
the previously held session identifier and the message sequence unchanged
and produces no user-visible message; the `finally` block still clears the
in-flight flag.  (The `console.error` logging is outside the state model.) -/
theorem startSession_failure_preserves_state (st : AppState) (r : StartCallResult)
    (h : r = StartCallResult.rejected ∨ ∃ k, r = StartCallResult.resolved k none) :
    (startSession st r).sessionId = st.sessionId ∧
    (startSession st r).messages = st.messages ∧
    (startSession st r).loading = false := by
  rcases h with h | ⟨k, h⟩ <;> subst h <;> simp [startSession]

/-- Witness for C4 at a concrete state with a rejected call. -/
theorem startSession_failure_preserves_state_witness :
    (StartCallResult.rejected = StartCallResult.rejected ∨
      ∃ k, StartCallResult.rejected = StartCallResult.resolved k none) ∧
    ((startSession c3State StartCallResult.rejected).sessionId = c3State.sessionId ∧
     (startSession c3State StartCallResult.rejected).messages = c3State.messages ∧
     (startSession c3State StartCallResult.rejected).loading = false) :=
  ⟨Or.inl rfl,
   startSession_failure_preserves_state c3State StartCallResult.rejected (Or.inl rfl)⟩

/-- Counterexample to claim C5 as stated: with input `" hi "` the request
body carries `" hi "` and the appended user message has content `" hi "`,
neither of which equals the trimmed text `"hi"`: `sendMessage` builds both
from the raw input (line 72 and line 82 of App.jsx), trimming only inside
the guard. -/
theorem sendMessage_uses_untrimmed_text :
    (sendBegin c5State).2 = some { session_id := "s", message := " hi " } ∧
    (sendBegin c5State).1.messages = [{ role := Role.user, content := " hi " }] ∧
    (" hi " : String) ≠ jsTrim " hi " :=
  ⟨by decide, by decide, by decide⟩

/-- Claim C5 (amended): for every send with valid precondition, the message
text carried in the request body and the content of the appended user-role
message both equal the raw input text, exactly as typed (untrimmed);
trimming is applied only in the precondition check. -/
theorem sendMessage_carries_raw_input (st : AppState)
    (hpre : sendPrecondHolds st = true) :
    (sendBegin st).2 =
      some { session_id := st.sessionId.getD "", message := st.input } ∧
    (sendBegin st).1.messages =
      st.messages ++ [{ role := Role.user, content := st.input }] := by
  rw [sendBegin_eq_of_precond st hpre]
  exact ⟨rfl, rfl⟩

/-- Witness for the amended C5 at the whitespace-carrying state. -/
theorem sendMessage_carries_raw_input_witness :
    sendPrecondHolds c5State = true ∧
    ((sendBegin c5State).2 =
        some { session_id := c5State.sessionId.getD "", message := c5State.input } ∧
     (sendBegin c5State).1.messages =
        c5State.messages ++ [{ role := Role.user, content := c5State.input }]) :=
  ⟨by decide, sendMessage_carries_raw_input c5State (by decide)⟩

/-- Claim C6: a start-session invocation whose backend response is successful
replaces the held session identifier with the identifier from the response
and empties the message sequence, for every prior state (any prior
transcript contents). -/
theorem startSession_success_resets (st : AppState) (sid : String) :
    startSession st (StartCallResult.resolved true (some { session_id := some sid })) =
      { st with sessionId := some sid, messages := [], loading := false } := rfl

/-- Claim C7: a send invocation whose input is empty after trimming, or with
no held session identifier, is a no-op: the state is returned unchanged in
every component and no request is issued. -/
theorem sendMessage_noop_when_precond_fails (st : AppState) (r : ChatCallResult)
    (h : sendPrecondHolds st = false) :
    sendMessage st r = st ∧ (sendBegin st).2 = none := by
  have hb := sendBegin_eq_of_not_precond st h
  constructor
  · simp [sendMessage, hb]
  · rw [hb]

/-- Witness for C7 at a concrete all-whitespace-input state. -/
theorem sendMessage_noop_when_precond_fails_witness :
    sendPrecondHolds nSt = false ∧
    (sendMessage nSt ChatCallResult.rejected = nSt ∧ (sendBegin nSt).2 = none) :=
  ⟨by decide,
   sendMessage_noop_when_precond_fails nSt ChatCallResult.rejected (by decide)⟩

/-- Claim C8: a send with valid precondition whose call resolves successfully
but whose body omits the `response` field appends no assistant message and
takes no error path: the transcript grows by exactly the user message. -/
theorem sendMessage_missing_response_appends_user_only (st : AppState)
    (hpre : sendPrecondHolds st = true) :
    (sendMessage st (ChatCallResult.resolved true (some { response := none }))).messages =
      st.messages ++ [{ role := Role.user, content := st.input }] := by
  have hb := sendBegin_eq_of_precond st hpre
  simp only [sendMessage]
  rw [hb]
  simp [sendSettle, responseTruthy]

/-- Witness for C8 at a concrete state. -/
theorem sendMessage_missing_response_appends_user_only_witness :
    sendPrecondHolds wSt = true ∧
    (sendMessage wSt (ChatCallResult.resolved true (some { response := none }))).messages =
      wSt.messages ++ [{ role := Role.user, content := wSt.input }] :=
  ⟨by decide, sendMessage_missing_response_appends_user_only wSt (by decide)⟩

/-- Counterexample to claim C9 as stated: the in-flight flag is not false at
all times outside a send interval — a reachable configuration in which a
start-session call (and no send) is outstanding has the flag raised,
because `startSession` sets the very same `loading` state on line 53. -/
theorem loading_true_while_start_call_pending :
    Reachable { app := startBegin initialState, pending := Pending.start } ∧
    (startBegin initialState).loading = true ∧
    Pending.start ≠ Pending.chat :=
  ⟨Reachable.next (e := Event.clickStart) Reachable.init (by decide), rfl, by decide⟩

/-- Claim C9 (amended): a send with valid precondition raises the in-flight
flag before its call resolves, and settlement clears it regardless of
outcome; on the mid-flight state a second send invocation is rejected by
precondition (the input field was cleared) and changes nothing, issuing no
request; and in every reachable configuration the flag is true exactly
while some backend call is outstanding — a send, or a start-session call,
which shares the same flag. -/
theorem inFlight_flag_behavior :
    (∀ st : AppState, sendPrecondHolds st = true →
        (sendBegin st).1.loading = true ∧
        (∀ r, (sendSettle (sendBegin st).1 r).loading = false) ∧
        sendBegin (sendBegin st).1 = ((sendBegin st).1, none)) ∧
    (∀ s : Sys, Reachable s → (s.app.loading = true ↔ s.pending ≠ Pending.idle)) := by
  constructor
  · intro st hpre
    have hb := sendBegin_eq_of_precond st hpre
    refine ⟨?_, ?_, ?_⟩
    · rw [hb]
    · intro r
      exact sendSettle_loading_false _ r
    · rw [hb]
      apply sendBegin_eq_of_not_precond
      simp [sendPrecondHolds, jsTrim]
  · exact reachable_loading_iff_pending

/-- Witness for the amended C9 at a concrete state and configuration. -/
theorem inFlight_flag_behavior_witness :
    sendPrecondHolds wSt = true ∧
    ((sendBegin wSt).1.loading = true ∧
     (sendSettle (sendBegin wSt).1 ChatCallResult.rejected).loading = false ∧
     sendBegin (sendBegin wSt).1 = ((sendBegin wSt).1, none)) ∧
    (initialSys.app.loading = true ↔ initialSys.pending ≠ Pending.idle) :=
  ⟨by decide,
   ⟨(inFlight_flag_behavior.1 wSt (by decide)).1,
    (inFlight_flag_behavior.1 wSt (by decide)).2.1 ChatCallResult.rejected,
    (inFlight_flag_behavior.1 wSt (by decide)).2.2⟩,
   inFlight_flag_behavior.2 initialSys Reachable.init⟩

/-- Claim C10: no phase of a send invocation — the early-return skip, the
synchronous prefix, or any settlement outcome — writes the session
identifier; across the whole event loop, only the settlement of a
start-session call ever writes it. -/
theorem sendMessage_preserves_sessionId :
    (∀ (st : AppState) (r : ChatCallResult),
        (sendMessage st r).sessionId = st.sessionId ∧
        (sendBegin st).1.sessionId = st.sessionId ∧
        (sendSettle st r).sessionId = st.sessionId) ∧
    (∀ (s s' : Sys) (e : Event), step s e = some s' →
        e.writesSession = false → s'.app.sessionId = s.app.sessionId) := by
  constructor
  · intro st r
    refine ⟨?_, sendBegin_fst_sessionId st, sendSettle_sessionId st r⟩
    by_cases hpre : sendPrecondHolds st = true
    · have hb := sendBegin_eq_of_precond st hpre
      simp only [sendMessage]
      rw [hb]
      simp [sendSettle_sessionId]
    · have hb := sendBegin_eq_of_not_precond st (Bool.eq_false_iff.mpr hpre)
      simp [sendMessage, hb]
  · intro s s' e hstep hw
    cases e with
    | typeInput t =>
        simp only [step] at hstep
        by_cases hl : s.app.loading = true
        · rw [if_pos hl] at hstep; simp at hstep
        · rw [if_neg hl] at hstep
          simp only [Option.some.injEq] at hstep
          subst hstep
          rfl
    | submitSend =>
        simp only [step] at hstep
        by_cases hl : s.app.loading = true
        · rw [if_pos hl] at hstep; simp at hstep
        · rw [if_neg hl] at hstep
          by_cases hpre : sendPrecondHolds s.app = true
          · rw [sendBegin_eq_of_precond s.app hpre] at hstep
            simp only [Option.some.injEq] at hstep
            subst hstep
            rfl
          · rw [sendBegin_eq_of_not_precond s.app (Bool.eq_false_iff.mpr hpre)] at hstep
            simp only [Option.some.injEq] at hstep
            subst hstep
            rfl
    | clickStart =>
        simp only [step] at hstep
        by_cases hl : s.app.loading = true
        · rw [if_pos hl] at hstep; simp at hstep
        · rw [if_neg hl] at hstep
          simp only [Option.some.injEq] at hstep
          subst hstep
          rfl
    | chatSettled r =>
        simp only [step] at hstep
        cases hp : s.pending
        · rw [hp] at hstep; simp at hstep
        · rw [hp] at hstep
          simp only [Option.some.injEq] at hstep
          subst hstep
          exact sendSettle_sessionId s.app r
        · rw [hp] at hstep; simp at hstep
    | startSettled r =>
        simp [Event.writesSession] at hw

/-- Witness for C10's event-loop clause at a concrete step. -/
theorem sendMessage_preserves_sessionId_witness :
    step initialSys (Event.typeInput "x") =
      some { app := { initialState with input := "x" }, pending := Pending.idle } ∧
    Event.writesSession (Event.typeInput "x") = false ∧
    ({ app := { initialState with input := "x" },
       pending := Pending.idle } : Sys).app.sessionId = initialSys.app.sessionId :=
  ⟨by decide, rfl,
   sendMessage_preserves_sessionId.2 initialSys
     { app := { initialState with input := "x" }, pending := Pending.idle }
     (Event.typeInput "x") (by decide) rfl⟩

end DevOpsPal
